import Mathlib

/-!
# MeterItPro sync subsystem — shallow embedding and verification

This file embeds, in Lean 4, the parts of the MeterItPro repository that the
frozen claims are about:

* `src/sync/api/src/server.ts` — the sync backend API server: the
  `POST /api/local/tenant-sync` handler (validation, remote lookup, local
  upsert, response construction), the `GET /api/local/sync-status` handler,
  and the `GET /api/sync/meter-reading-upload/status` handler;
* `src/sync/api/src/config/database.ts` — `initializePools` and its startup
  connection tests;
* the `useConnectionStatus` React hook (`checkConnection`,
  `checkAllConnections`, `isAllConnected`, `isRemoteSystemConnected`) and the
  `ConnectionState` enum from `src/sync/frontend/src/types/connection.ts`.

Database state is embedded as explicit lists of rows; SQL queries over those
lists are translated clause by clause (`WHERE` as `filter`, `ORDER BY ... DESC`
as `insertionSort` with the reversed order, `LIMIT n` as `take n`).  JavaScript
value truthiness (`if (!tenant_id)`) is embedded by an explicit `JsValue` type
with its `truthy` coercion.  PostgreSQL's affected-row count for
`INSERT ... ON CONFLICT DO UPDATE` with a single `VALUES` row is 1 whether the
row was inserted or updated; the embedding records this fact where the handler
consumes `rowCount`.
-/

namespace MeterItPro

/-! ## JavaScript values and truthiness

`req.body` fields are JavaScript values.  The tenant-sync handler guards on
`if (!tenant_id)`, i.e. on JS falsiness.  (NaN, also falsy in JS, is outside
this model; JSON bodies cannot carry it.) -/

/-- A JSON/JavaScript value as it can appear in a parsed request body field.
`undefined` is the value of an absent field. -/
inductive JsValue where
  | jsUndefined : JsValue
  | jsNull : JsValue
  | jsBool : Bool → JsValue
  | jsNum : Int → JsValue
  | jsStr : String → JsValue
deriving DecidableEq, Repr

/-- JavaScript truthiness: `undefined`, `null`, `false`, `0`, and `""` are
falsy; every other value in this model is truthy. -/
def JsValue.truthy : JsValue → Bool
  | .jsUndefined => false
  | .jsNull => false
  | .jsBool b => b
  | .jsNum n => n != 0
  | .jsStr s => s != ""

/-! ## Connection state machine (frontend)

From `src/sync/frontend/src/types/connection.ts`: the `ConnectionState` enum
has four members. -/

/-- The `ConnectionState` enum: `CHECKING`, `CONNECTED`, `DISCONNECTED`,
`ERROR`. -/
inductive ConnectionState where
  | checking
  | connected
  | disconnected
  | error
deriving DecidableEq, Repr

/-- The possible outcomes of one `fetch` probe in `checkConnection`: an HTTP
response with some status code arriving before the 5-second abort timer, an
abort by that timer, or a network error.  The latter two are rejections of the
`fetch` promise and land in the `catch` branch. -/
inductive ProbeOutcome where
  | response : Nat → ProbeOutcome
  | timeoutAbort : ProbeOutcome
  | networkError : ProbeOutcome
deriving DecidableEq, Repr

/-- Function `checkConnection` from the `useConnectionStatus` hook: returns
`response.ok` (status in 200..299) when a response arrives within the timeout,
and `false` from the `catch` branch on an abort or a network error. -/
def checkConnection : ProbeOutcome → Bool
  | .response status => 200 ≤ status && status ≤ 299
  | .timeoutAbort => false
  | .networkError => false

/-- The per-endpoint state update in `checkAllConnections`:
`connected ? ConnectionState.CONNECTED : ConnectionState.DISCONNECTED`. -/
def stateOfProbe (o : ProbeOutcome) : ConnectionState :=
  if checkConnection o then ConnectionState.connected else ConnectionState.disconnected

/-- The hook's state: one `ConnectionState` per probed endpoint
(`syncDb`, `remoteDb`, `remoteApi`). -/
structure ConnectionStatusState where
  syncDb : ConnectionState
  remoteDb : ConnectionState
  remoteApi : ConnectionState
deriving DecidableEq, Repr

/-- Flag `isAllConnected` from `useConnectionStatus`: all three endpoint states are
`CONNECTED`. -/
def isAllConnected (s : ConnectionStatusState) : Bool :=
  s.syncDb == ConnectionState.connected &&
  s.remoteDb == ConnectionState.connected &&
  s.remoteApi == ConnectionState.connected

/-- Flag `isRemoteSystemConnected` from `useConnectionStatus`: the remote-database
and remote-API states are `CONNECTED`; the local sync-database state is not
consulted. -/
def isRemoteSystemConnected (s : ConnectionStatusState) : Bool :=
  s.remoteDb == ConnectionState.connected &&
  s.remoteApi == ConnectionState.connected

/-! ## Tenant rows and the local/remote tenant tables

The columns named by the tenant-sync handler's queries
(`SELECT tenant_id, name, url, street, street2, city, state, zip, country,
active, api_key FROM tenant ...`). -/

/-- One row of the `tenant` table, with the columns the sync server reads and
writes. -/
structure TenantRow where
  tenant_id : Int
  name : String
  url : String
  street : String
  street2 : String
  city : String
  state : String
  zip : String
  country : String
  active : Bool
  api_key : String
deriving DecidableEq, Repr, Inhabited

/-- A tenant table is a list of rows; `tenant_id` carries a unique constraint
(`ON CONFLICT (tenant_id)` requires one), so at most one row matches a given
identifier. -/
abbrev TenantTable := List TenantRow

/-- The comparison `WHERE tenant_id = $1` where the parameter is the JS value
taken from the request body: PostgreSQL coerces the parameter to the integer
column type (a numeric string is cast; non-numeric values would not reach the
comparison as equal). -/
def idMatches : JsValue → Int → Bool
  | .jsNum n, i => n == i
  | .jsStr s, i => s.toInt? == some i
  | _, _ => false

/-- The remote lookup
`SELECT ... FROM tenant WHERE tenant_id = $1` followed by `rows[0]`:
the first matching row, if any. -/
def remoteTenantLookup (remoteDb : TenantTable) (tenant_id : JsValue) :
    Option TenantRow :=
  (remoteDb.filter (fun t => idMatches tenant_id t.tenant_id)).head?

/-- The effect of `upsertQuery` on the local `tenant` table:
`INSERT ... ON CONFLICT (tenant_id) DO UPDATE SET name = EXCLUDED.name, ...`.
Every mirrored column is listed in the `DO UPDATE SET` clause, so a conflicting
row is overwritten wholesale with the incoming values; otherwise the row is
appended. -/
def upsertTenant (db : TenantTable) (r : TenantRow) : TenantTable :=
  if db.any (fun t => t.tenant_id == r.tenant_id) then
    db.map (fun t => if t.tenant_id == r.tenant_id then r else t)
  else
    db ++ [r]

/-- Result of executing `upsertQuery` (the `pg` result object): the
`RETURNING *` rows, the affected-row count, and the table afterwards. -/
structure UpsertResult where
  rows : List TenantRow
  rowCount : Nat
  newDb : TenantTable
deriving Repr

/-- Executing `upsertQuery` against the local store.  PostgreSQL semantics for
`INSERT ... ON CONFLICT (tenant_id) DO UPDATE ... RETURNING *` with a single
`VALUES` row: exactly one row is affected — inserted when no row carried this
`tenant_id`, updated otherwise — the command tag (and hence `pg`'s `rowCount`)
reports 1 in **both** cases, and `RETURNING *` yields the post-write row, which
equals the incoming record because every column is overwritten. -/
def runUpsertQuery (db : TenantTable) (r : TenantRow) : UpsertResult :=
  { rows := [r], rowCount := 1, newDb := upsertTenant db r }

/-- Object `tenant_data` as assembled in the handler's success response: every column
of the post-upsert local row except `api_key`. -/
structure TenantData where
  tenant_id : Int
  name : String
  url : String
  street : String
  street2 : String
  city : String
  state : String
  zip : String
  country : String
  active : Bool
deriving DecidableEq, Repr

/-- Projection of a local tenant row to the `tenant_data` response object. -/
def tenantData (t : TenantRow) : TenantData :=
  { tenant_id := t.tenant_id, name := t.name, url := t.url, street := t.street,
    street2 := t.street2, city := t.city, state := t.state, zip := t.zip,
    country := t.country, active := t.active }

/-- Object `sync_result` of a successful tenant sync (the `timestamp` field, a wall
clock read, is not modelled). -/
structure SyncResult where
  inserted : Nat
  updated : Nat
deriving DecidableEq, Repr

/-- The response of `POST /api/local/tenant-sync`, by status code. -/
inductive TenantSyncResponse where
  | badRequest400 : TenantSyncResponse
  | remoteUnavailable503 : TenantSyncResponse
  | notFound404 : TenantSyncResponse
  | ok200 : SyncResult → TenantData → TenantSyncResponse
deriving DecidableEq, Repr

/-- The stores a handler execution touches, in order. -/
inductive StoreAccess where
  | remoteSelect : StoreAccess
  | localUpsert : StoreAccess
deriving DecidableEq, Repr

/-- Everything observable about one execution of the tenant-sync handler: the
HTTP response, the local tenant table afterwards, and the trace of store
accesses it performed. -/
structure TenantSyncOutcome where
  resp : TenantSyncResponse
  localDb : TenantTable
  accesses : List StoreAccess
deriving Repr

/-- The `POST /api/local/tenant-sync` handler.  Inputs: the `tenant_id` field
of the request body (`jsUndefined` when absent), whether `remotePool` is
available, and the two tenant tables.  Mirrors the handler's branch order:
(1) `if (!tenant_id)` → 400 before touching any store; (2) `if (!remotePool)`
→ 503; (3) remote `SELECT`, empty → 404 with the local table untouched;
(4) `upsertQuery`, then the response built from `upsertResult.rowCount` and
`upsertResult.rows[0]`. -/
def tenantSyncHandler (tenant_id : JsValue) (remotePoolAvailable : Bool)
    (remoteDb localDb : TenantTable) : TenantSyncOutcome :=
  if !tenant_id.truthy then
    { resp := .badRequest400, localDb := localDb, accesses := [] }
  else if !remotePoolAvailable then
    { resp := .remoteUnavailable503, localDb := localDb, accesses := [] }
  else
    match remoteTenantLookup remoteDb tenant_id with
    | none =>
        { resp := .notFound404, localDb := localDb,
          accesses := [.remoteSelect] }
    | some remoteTenant =>
        let upsertResult := runUpsertQuery localDb remoteTenant
        let localTenant := upsertResult.rows.headI
        { resp := .ok200
            { inserted := if upsertResult.rowCount == 1 then 1 else 0,
              updated := if upsertResult.rowCount == 1 then 0 else 1 }
            (tenantData localTenant),
          localDb := upsertResult.newDb,
          accesses := [.remoteSelect, .localUpsert] }

/-! ## Sync log and meter-reading queue

The columns the two status handlers read: `sync_log (id, batch_size, success,
error_message, synced_at, operation_type)` and
`meter_reading (..., is_synchronized)`. -/

/-- One row of the `sync_log` table.  `synced_at` (completion timestamp) is a
`Nat` tick; `error_message` is nullable. -/
structure SyncLogRow where
  id : Nat
  batch_size : Nat
  success : Bool
  error_message : Option String
  synced_at : Nat
  operation_type : String
deriving DecidableEq, Repr

/-- The slice of a `meter_reading` row the status handlers consult. -/
structure MeterReadingRow where
  meter_reading_id : Nat
  meter_id : Nat
  is_synchronized : Bool
deriving DecidableEq, Repr

/-- Clause `ORDER BY synced_at DESC` as an ordering on sync-log rows: `a` before `b`
when `a.synced_at ≥ b.synced_at`. -/
def syncedAtDesc (a b : SyncLogRow) : Prop := b.synced_at ≤ a.synced_at

instance : DecidableRel syncedAtDesc := fun a b => Nat.decLe b.synced_at a.synced_at

instance : IsTotal SyncLogRow syncedAtDesc :=
  ⟨fun a b => Nat.le_total b.synced_at a.synced_at⟩

instance : IsTrans SyncLogRow syncedAtDesc :=
  ⟨fun _ _ _ hab hbc => Nat.le_trans hbc hab⟩

/-- Query `SELECT COUNT(*) FROM meter_reading WHERE is_synchronized = false` —
the queue size both status handlers compute. -/
def queueSizeOf (readings : List MeterReadingRow) : Nat :=
  (readings.filter (fun r => !r.is_synchronized)).length

/-- Query `SELECT id, batch_size, success, error_message, synced_at FROM sync_log
ORDER BY synced_at DESC LIMIT 10` — the `recentLogs` of the sync-status
handler. -/
def recentSyncLogs (syncLog : List SyncLogRow) : List SyncLogRow :=
  (syncLog.insertionSort syncedAtDesc).take 10

/-- One element of the handler's `sync_errors` array:
`{sync_log_id, batch_size, error_message, synced_at}`. -/
structure SyncErrorEntry where
  sync_log_id : Nat
  batch_size : Nat
  error_message : String
  synced_at : Nat
deriving DecidableEq, Repr

/-- The map in the handler: `log.error_message || 'Unknown error'` — a null or
empty error message is replaced by the default (JS `||`). -/
def toSyncErrorEntry (log : SyncLogRow) : SyncErrorEntry :=
  { sync_log_id := log.id, batch_size := log.batch_size,
    error_message :=
      match log.error_message with
      | some s => if s = "" then "Unknown error" else s
      | none => "Unknown error",
    synced_at := log.synced_at }

/-- The response body of `GET /api/local/sync-status`. -/
structure SyncStatusResponse where
  is_connected : Bool
  last_sync_at : Option Nat
  queue_size : Nat
  sync_errors : List SyncErrorEntry
deriving DecidableEq, Repr

/-- The `GET /api/local/sync-status` handler.  Inputs: the `meter_reading` and
`sync_log` tables and whether the `SELECT 1` probe of the remote pool
succeeds.  Mirrors the handler: queue count; `recentLogs` = 10 most recent
sync-log rows; `lastSuccessfulSync` = `synced_at` of the first of those with
`success` (or null); `errorLogs` = the non-successes among them, `slice(0,10)`,
mapped to error entries. -/
def getSyncStatus (readings : List MeterReadingRow) (syncLog : List SyncLogRow)
    (remoteProbeOk : Bool) : SyncStatusResponse :=
  let queueSize := queueSizeOf readings
  let recentLogs := recentSyncLogs syncLog
  let successfulLogs := recentLogs.filter (fun log => log.success)
  let lastSuccessfulSync := successfulLogs.head?.map (fun log => log.synced_at)
  let errorLogs :=
    (((recentLogs.filter (fun log => !log.success)).take 10).map toSyncErrorEntry)
  { is_connected := remoteProbeOk,
    last_sync_at := lastSuccessfulSync,
    queue_size := queueSize,
    sync_errors := errorLogs }

/-- Query `SELECT success, error_message, synced_at, batch_size FROM sync_log
WHERE operation_type = 'upload' ORDER BY synced_at DESC LIMIT 1` followed by
`rows[0]` — the `lastUpload` of the upload-status handler. -/
def lastUploadRow (syncLog : List SyncLogRow) : Option SyncLogRow :=
  ((syncLog.filter (fun log => log.operation_type = "upload")).insertionSort
    syncedAtDesc).head?

/-- The response body of `GET /api/sync/meter-reading-upload/status`. -/
structure UploadStatusResponse where
  is_running : Bool
  last_upload_time : Option Nat
  last_upload_success : Option Bool
  last_upload_error : Option String
  queue_size : Nat
  total_uploaded : Nat
  total_failed : Nat
  is_client_connected : Bool
deriving DecidableEq, Repr

/-- The `GET /api/sync/meter-reading-upload/status` handler.  Mirrors the
response object: `is_running: false` (the API does not manage the upload
process), `last_upload_time: lastUpload?.synced_at || null` (a `synced_at`
value from the row, a Date, is always truthy), `last_upload_success:
lastUpload?.success ?? null` (nullish coalescing: `false` is kept),
`last_upload_error: lastUpload?.error_message || null` (JS `||`: a null or
empty message becomes null), `total_uploaded: 0`, `total_failed: 0`. -/
def getUploadStatus (readings : List MeterReadingRow) (syncLog : List SyncLogRow)
    (remoteProbeOk : Bool) : UploadStatusResponse :=
  let queueSize := queueSizeOf readings
  let lastUpload := lastUploadRow syncLog
  { is_running := false,
    last_upload_time := lastUpload.map (fun log => log.synced_at),
    last_upload_success := lastUpload.map (fun log => log.success),
    last_upload_error :=
      lastUpload.bind (fun log =>
        match log.error_message with
        | some s => if s = "" then none else some s
        | none => none),
    queue_size := queueSize,
    total_uploaded := 0,
    total_failed := 0,
    is_client_connected := remoteProbeOk }

/-! ## Pool initialization (`database.ts`) -/

/-- The log severity a message is written with. -/
inductive LogSeverity where
  | info
  | warn
  | consoleError
deriving DecidableEq, Repr

/-- What the connection-test section at the end of `initializePools` does,
observably: the severity used when each test fails (none when it passes),
whether initialization ran to completion, and whether it threw. -/
structure InitOutcome where
  syncFailureLog : Option LogSeverity
  remoteFailureLog : Option LogSeverity
  completed : Bool
  threw : Bool
deriving DecidableEq, Repr

/-- The startup connection tests in `initializePools`, as a function of
whether each `SELECT NOW()` test succeeds.  Both tests sit in their own
`try`/`catch`; the sync-database catch logs with `console.error` and the
remote catch logs with `console.warn` (with the comment "Don't throw - remote
connection is optional for some operations"); neither rethrows, and the
function returns normally in every case. -/
def initConnectionTests (syncTestOk remoteTestOk : Bool) : InitOutcome :=
  { syncFailureLog := if syncTestOk then none else some LogSeverity.consoleError,
    remoteFailureLog := if remoteTestOk then none else some LogSeverity.warn,
    completed := true,
    threw := false }

/-! ## Theorems -/

/-- C6: every probe outcome resolves to exactly `connected` or `disconnected`:
a response with a 2xx status within the timeout yields `connected`, and
anything else (timeout abort, network error, non-2xx response) yields
`disconnected`; the `error` member of `ConnectionState` is never produced, nor
is `checking` re-entered, and `stateOfProbe` is total so no outcome is left
unresolved. -/
theorem stateOfProbe_connected_or_disconnected :
    ∀ o : ProbeOutcome,
      (stateOfProbe o = ConnectionState.connected ∨
        stateOfProbe o = ConnectionState.disconnected) ∧
      (stateOfProbe o = ConnectionState.connected ↔
        ∃ status, o = ProbeOutcome.response status ∧ 200 ≤ status ∧ status ≤ 299) ∧
      stateOfProbe o ≠ ConnectionState.error ∧
      stateOfProbe o ≠ ConnectionState.checking := by
  intro o
  cases o with
  | response status =>
      by_cases h : 200 ≤ status ∧ status ≤ 299
      · simp [stateOfProbe, checkConnection, h.1, h.2]
      · have hb : checkConnection (ProbeOutcome.response status) = false := by
          simp only [checkConnection]
          rcases Decidable.not_and_iff_or_not.mp h with h1 | h1 <;> simp [h1]
        refine ⟨Or.inr ?_, ?_, ?_, ?_⟩ <;> simp [stateOfProbe, hb, h]
  | timeoutAbort => simp [stateOfProbe, checkConnection]
  | networkError => simp [stateOfProbe, checkConnection]

/-- C7: `isAllConnected` holds iff all three endpoint states are `connected`,
and `isRemoteSystemConnected` holds iff the remote-database and remote-API
states are both `connected`, whatever the local sync-database state; in
particular, local disconnected with both remote probes connected gives
`isRemoteSystemConnected = true` and `isAllConnected = false`. -/
theorem connection_aggregates_characterized :
    (∀ s : ConnectionStatusState,
      (isAllConnected s = true ↔
        s.syncDb = ConnectionState.connected ∧
        s.remoteDb = ConnectionState.connected ∧
        s.remoteApi = ConnectionState.connected) ∧
      (isRemoteSystemConnected s = true ↔
        s.remoteDb = ConnectionState.connected ∧
        s.remoteApi = ConnectionState.connected)) ∧
    (isRemoteSystemConnected
        ⟨ConnectionState.disconnected, ConnectionState.connected,
          ConnectionState.connected⟩ = true ∧
      isAllConnected
        ⟨ConnectionState.disconnected, ConnectionState.connected,
          ConnectionState.connected⟩ = false) := by
  refine ⟨fun s => ⟨?_, ?_⟩, by decide⟩ <;>
    simp [isAllConnected, isRemoteSystemConnected, and_assoc]

/-- C9 counterexample: the claim says a failing startup connectivity test
against the local store is fatal, but `initializePools` catches that failure
too: with the sync-database test failing (and the remote one passing),
initialization still completes without throwing. -/
theorem initializePools_localFailure_not_fatal :
    (initConnectionTests false true).completed = true ∧
    (initConnectionTests false true).threw = false := by decide

/-- C9 amended: both startup connectivity-test failures are non-fatal —
`initializePools` completes without throwing in every combination of test
outcomes — and the two failures are distinguished only by log severity:
`console.error` for the local sync store, `console.warn` for the remote
store. -/
theorem initializePools_both_failures_nonfatal :
    ∀ syncTestOk remoteTestOk : Bool,
      (initConnectionTests syncTestOk remoteTestOk).completed = true ∧
      (initConnectionTests syncTestOk remoteTestOk).threw = false ∧
      (initConnectionTests syncTestOk remoteTestOk).syncFailureLog =
        (if syncTestOk then none else some LogSeverity.consoleError) ∧
      (initConnectionTests syncTestOk remoteTestOk).remoteFailureLog =
        (if remoteTestOk then none else some LogSeverity.warn) := by
  decide

/-- C10: the tenant-sync handler guards with `if (!tenant_id)`, so every
falsy `tenant_id` — the number 0, the empty string, `null`, `false`, and an
absent field alike — is rejected with 400 before any store access; a tenant
with identifier 0 therefore can never be reconciled through this endpoint. -/
theorem tenantSync_rejects_falsy_tenant_id :
    ∀ (remotePoolAvailable : Bool) (remoteDb localDb : TenantTable),
      ((tenantSyncHandler (JsValue.jsNum 0) remotePoolAvailable remoteDb
          localDb).resp = TenantSyncResponse.badRequest400 ∧
        (tenantSyncHandler (JsValue.jsStr "") remotePoolAvailable remoteDb
          localDb).resp = TenantSyncResponse.badRequest400 ∧
        (tenantSyncHandler JsValue.jsNull remotePoolAvailable remoteDb
          localDb).resp = TenantSyncResponse.badRequest400 ∧
        (tenantSyncHandler (JsValue.jsBool false) remotePoolAvailable remoteDb
          localDb).resp = TenantSyncResponse.badRequest400) ∧
      ∀ v : JsValue, v.truthy = false →
        (tenantSyncHandler v remotePoolAvailable remoteDb localDb).resp =
            TenantSyncResponse.badRequest400 ∧
          (tenantSyncHandler v remotePoolAvailable remoteDb localDb).accesses =
            [] := by
  intro avail remoteDb localDb
  refine ⟨⟨?_, ?_, ?_, ?_⟩, fun v hv => ?_⟩ <;>
    simp_all [tenantSyncHandler, JsValue.truthy]

/-- C10 witness: the falsy-rejection theorem applied at the concrete input
`tenant_id = 0` with both tables empty. -/
theorem tenantSync_rejects_falsy_tenant_id_witness :
    (tenantSyncHandler (JsValue.jsNum 0) true [] []).resp =
        TenantSyncResponse.badRequest400 ∧
      (tenantSyncHandler (JsValue.jsNum 0) true [] []).accesses = [] :=
  (tenantSync_rejects_falsy_tenant_id true [] []).2 (JsValue.jsNum 0) (by decide)

/-- The remote tenant `{tenant_id: 7, name: "Acme"}` of the spec's
tenant-sync scenario. -/
def acmeTenant : TenantRow :=
  { tenant_id := 7, name := "Acme", url := "https://acme.example",
    street := "1 Main St", street2 := "", city := "Springfield", state := "IL",
    zip := "62701", country := "US", active := true, api_key := "acme-key" }

/-- C1: the handler derives `inserted`/`updated` from
`upsertResult.rowCount === 1`, but PostgreSQL reports `rowCount = 1` for
`INSERT ... ON CONFLICT DO UPDATE` whether the row was inserted or updated, so
the repeated sync of tenant 7 — the local table already holding the row —
still responds `inserted = 1, updated = 0`, contradicting the documented
`updated = 1`; the first sync (empty local table) does report `inserted = 1`,
and the repeated call's `tenant_data` is identical. -/
theorem tenantSync_repeat_still_reports_inserted :
    (tenantSyncHandler (JsValue.jsNum 7) true [acmeTenant] []).resp =
        TenantSyncResponse.ok200 { inserted := 1, updated := 0 }
          (tenantData acmeTenant) ∧
      (tenantSyncHandler (JsValue.jsNum 7) true [acmeTenant]
          [acmeTenant]).resp =
        TenantSyncResponse.ok200 { inserted := 1, updated := 0 }
          (tenantData acmeTenant) := by
  constructor <;> rfl

/-- C3: the tenant-sync handler's branch order — a falsy `tenant_id` gives
400 with no store accessed, an unavailable remote pool gives 503 (still with
no store accessed), an empty remote lookup gives 404, and otherwise the
handler responds 200 with the sync result and the tenant data of the looked-up
record. -/
theorem tenantSync_status_code_branches (tenant_id : JsValue)
    (avail : Bool) (remoteDb localDb : TenantTable) :
    (tenant_id.truthy = false →
      (tenantSyncHandler tenant_id avail remoteDb localDb).resp =
          TenantSyncResponse.badRequest400 ∧
        (tenantSyncHandler tenant_id avail remoteDb localDb).accesses = []) ∧
    (tenant_id.truthy = true → avail = false →
      (tenantSyncHandler tenant_id avail remoteDb localDb).resp =
          TenantSyncResponse.remoteUnavailable503 ∧
        (tenantSyncHandler tenant_id avail remoteDb localDb).accesses = []) ∧
    (tenant_id.truthy = true → avail = true →
      remoteTenantLookup remoteDb tenant_id = none →
      (tenantSyncHandler tenant_id avail remoteDb localDb).resp =
        TenantSyncResponse.notFound404) ∧
    (∀ r : TenantRow, tenant_id.truthy = true → avail = true →
      remoteTenantLookup remoteDb tenant_id = some r →
      (tenantSyncHandler tenant_id avail remoteDb localDb).resp =
        TenantSyncResponse.ok200 { inserted := 1, updated := 0 }
          (tenantData r)) := by
  refine ⟨fun h1 => ?_, fun h1 h2 => ?_, fun h1 h2 h3 => ?_, fun r h1 h2 h3 => ?_⟩
  · simp [tenantSyncHandler, h1]
  · simp [tenantSyncHandler, h1, h2]
  · simp [tenantSyncHandler, h1, h2, h3]
  · simp [tenantSyncHandler, h1, h2, h3]
    simp [runUpsertQuery, List.headI]

/-- C3 witness: the branch theorem applied at concrete inputs — absent
`tenant_id` (400), unavailable pool (503), tenant 99 absent remotely (404),
and tenant 7 present remotely (200). -/
theorem tenantSync_status_code_branches_witness :
    (tenantSyncHandler JsValue.jsUndefined true [acmeTenant] []).resp =
        TenantSyncResponse.badRequest400 ∧
      (tenantSyncHandler (JsValue.jsNum 7) false [acmeTenant] []).resp =
        TenantSyncResponse.remoteUnavailable503 ∧
      (tenantSyncHandler (JsValue.jsNum 99) true [acmeTenant] []).resp =
        TenantSyncResponse.notFound404 ∧
      (tenantSyncHandler (JsValue.jsNum 7) true [acmeTenant] []).resp =
        TenantSyncResponse.ok200 { inserted := 1, updated := 0 }
          (tenantData acmeTenant) :=
  ⟨((tenantSync_status_code_branches JsValue.jsUndefined true [acmeTenant]
      []).1 (by decide)).1,
    ((tenantSync_status_code_branches (JsValue.jsNum 7) false [acmeTenant]
      []).2.1 (by decide) rfl).1,
    (tenantSync_status_code_branches (JsValue.jsNum 99) true [acmeTenant]
      []).2.2.1 (by decide) rfl (by decide),
    (tenantSync_status_code_branches (JsValue.jsNum 7) true [acmeTenant]
      []).2.2.2 acmeTenant (by decide) rfl (by decide)⟩

/-- C4: when no remote row matches the requested identifier, the handler
responds 404 and the local store is untouched: the table after the call equals
the table before, and the access trace contains no local upsert. -/
theorem tenantSync_notFound_local_unchanged (tenant_id : JsValue)
    (remoteDb localDb : TenantTable)
    (htruthy : tenant_id.truthy = true)
    (habsent : ∀ t ∈ remoteDb, idMatches tenant_id t.tenant_id = false) :
    (tenantSyncHandler tenant_id true remoteDb localDb).resp =
        TenantSyncResponse.notFound404 ∧
      (tenantSyncHandler tenant_id true remoteDb localDb).localDb = localDb ∧
      StoreAccess.localUpsert ∉
        (tenantSyncHandler tenant_id true remoteDb localDb).accesses := by
  have hlookup : remoteTenantLookup remoteDb tenant_id = none := by
    simp [remoteTenantLookup, List.filter_eq_nil_iff.mpr ?_]
    intro t ht
    simp [habsent t ht]
  simp [tenantSyncHandler, htruthy, hlookup]

/-- C4 witness: tenant 99 absent from a remote table holding only tenant 7 —
404, local table unchanged, no upsert access. -/
theorem tenantSync_notFound_local_unchanged_witness :
    (tenantSyncHandler (JsValue.jsNum 99) true [acmeTenant] [acmeTenant]).resp =
        TenantSyncResponse.notFound404 ∧
      (tenantSyncHandler (JsValue.jsNum 99) true [acmeTenant]
          [acmeTenant]).localDb = [acmeTenant] ∧
      StoreAccess.localUpsert ∉
        (tenantSyncHandler (JsValue.jsNum 99) true [acmeTenant]
          [acmeTenant]).accesses :=
  tenantSync_notFound_local_unchanged (JsValue.jsNum 99) [acmeTenant]
    [acmeTenant] (by decide) (by decide)

/-- The row-replacement function of the upsert's conflict branch is
idempotent: replacing a second time changes nothing. -/
theorem upsertReplace_idem (r t : TenantRow) :
    (if (if t.tenant_id == r.tenant_id then r else t).tenant_id == r.tenant_id
      then r else (if t.tenant_id == r.tenant_id then r else t)) =
      (if t.tenant_id == r.tenant_id then r else t) := by
  by_cases h : t.tenant_id == r.tenant_id <;> simp [h]

/-- After an upsert of `r`, the table contains a row with `r`'s
`tenant_id`. -/
theorem upsertTenant_any_matching (db : TenantTable) (r : TenantRow) :
    (upsertTenant db r).any (fun t => t.tenant_id == r.tenant_id) = true := by
  unfold upsertTenant
  by_cases hany : db.any (fun t => t.tenant_id == r.tenant_id) = true
  · rw [if_pos hany]
    rcases List.any_eq_true.mp hany with ⟨t, ht, hmatch⟩
    refine List.any_eq_true.mpr ⟨r, ?_, by simp⟩
    refine List.mem_map.mpr ⟨t, ht, ?_⟩
    simp [hmatch]
  · rw [if_neg hany]
    exact List.any_eq_true.mpr ⟨r, by simp, by simp⟩

/-- C5: tenant reconciliation is idempotent on the local row — upserting the
same remote record twice equals upserting it once; the post-upsert table holds
the remote record itself, and every row carrying its identifier **is** that
record (all mirrored fields overwritten); consequently a second tenant-sync
call against unchanged remote data leaves the local table exactly as the
first call did. -/
theorem tenantSync_idempotent_local_row :
    ∀ (db : TenantTable) (r : TenantRow),
      (upsertTenant (upsertTenant db r) r = upsertTenant db r ∧
        r ∈ upsertTenant db r ∧
        ∀ t ∈ upsertTenant db r, t.tenant_id = r.tenant_id → t = r) ∧
      ∀ tenant_id : JsValue, ∀ remoteDb : TenantTable,
        tenant_id.truthy = true →
        remoteTenantLookup remoteDb tenant_id = some r →
        (tenantSyncHandler tenant_id true remoteDb
            (tenantSyncHandler tenant_id true remoteDb db).localDb).localDb =
          (tenantSyncHandler tenant_id true remoteDb db).localDb := by
  have key : ∀ (db : TenantTable) (r : TenantRow),
      upsertTenant (upsertTenant db r) r = upsertTenant db r ∧
      r ∈ upsertTenant db r ∧
      ∀ t ∈ upsertTenant db r, t.tenant_id = r.tenant_id → t = r := by
    intro db r
    by_cases hany : db.any (fun t => t.tenant_id == r.tenant_id) = true
    · have h1 : upsertTenant db r =
          db.map (fun t => if t.tenant_id == r.tenant_id then r else t) := by
        unfold upsertTenant; rw [if_pos hany]
      refine ⟨?_, ?_, ?_⟩
      · rw [h1]
        unfold upsertTenant
        rw [if_pos (h1 ▸ upsertTenant_any_matching db r), List.map_map]
        exact List.map_congr_left fun t _ => upsertReplace_idem r t
      · rw [h1]
        rcases List.any_eq_true.mp hany with ⟨t, ht, hmatch⟩
        exact List.mem_map.mpr ⟨t, ht, by simp [hmatch]⟩
      · rw [h1]
        intro t ht hid
        rcases List.mem_map.mp ht with ⟨s, _, hs⟩
        by_cases hm : s.tenant_id == r.tenant_id
        · rw [← hs]; simp [hm]
        · rw [← hs] at hid ⊢
          simp only [hm, Bool.false_eq_true, if_false] at hid ⊢
          exact absurd (by simpa using hid) (by simpa using hm)
    · have h1 : upsertTenant db r = db ++ [r] := by
        unfold upsertTenant; rw [if_neg hany]
      have hnomatch : ∀ t ∈ db, ¬(t.tenant_id == r.tenant_id) = true := by
        intro t ht
        exact List.any_eq_false.mp (Bool.eq_false_iff.mpr hany) t ht
      refine ⟨?_, ?_, ?_⟩
      · rw [h1]
        unfold upsertTenant
        rw [if_pos (h1 ▸ upsertTenant_any_matching db r), List.map_append]
        have hdb : db.map (fun t => if t.tenant_id == r.tenant_id then r
            else t) = db := by
          have h2 : db.map (fun t => if t.tenant_id == r.tenant_id then r
              else t) = db.map id :=
            List.map_congr_left (fun t ht => by
              simp [Bool.eq_false_iff.mpr (hnomatch t ht)])
          simpa using h2
        have hr : [r].map (fun t => if t.tenant_id == r.tenant_id then r
            else t) = [r] := by simp
        rw [hdb, hr]
      · rw [h1]; exact List.mem_append_right db (by simp)
      · rw [h1]
        intro t ht hid
        rcases List.mem_append.mp ht with hdb | hr
        · exact absurd (by simp [hid]) (hnomatch t hdb)
        · simpa using hr
  intro db r
  refine ⟨key db r, fun tenant_id remoteDb htruthy hlookup => ?_⟩
  simp [tenantSyncHandler, htruthy, hlookup, runUpsertQuery, List.headI]
  exact (key db r).1

/-- C5 witness: the idempotence theorem applied to the Acme tenant — the
second sync of tenant 7 leaves the one-row local table produced by the first
sync unchanged. -/
theorem tenantSync_idempotent_local_row_witness :
    (tenantSyncHandler (JsValue.jsNum 7) true [acmeTenant]
        (tenantSyncHandler (JsValue.jsNum 7) true [acmeTenant] []).localDb).localDb =
      (tenantSyncHandler (JsValue.jsNum 7) true [acmeTenant] []).localDb :=
  (tenantSync_idempotent_local_row [] acmeTenant).2 (JsValue.jsNum 7)
    [acmeTenant] (by decide) (by decide)

/-- The sorted sync log is pairwise ordered most-recent-first. -/
theorem insertionSort_syncedAtDesc_pairwise (l : List SyncLogRow) :
    (l.insertionSort syncedAtDesc).Pairwise syncedAtDesc :=
  List.sorted_insertionSort syncedAtDesc l

/-- The `recentLogs` query result is pairwise ordered most-recent-first. -/
theorem recentSyncLogs_pairwise (l : List SyncLogRow) :
    (recentSyncLogs l).Pairwise syncedAtDesc :=
  List.Pairwise.sublist (List.take_sublist 10 _)
    (insertionSort_syncedAtDesc_pairwise l)

/-- Every row of the `recentLogs` query result is a row of the log table. -/
theorem recentSyncLogs_subset (l : List SyncLogRow) :
    ∀ x ∈ recentSyncLogs l, x ∈ l := fun x hx =>
  (List.mem_insertionSort syncedAtDesc).mp ((List.take_sublist 10 _).subset hx)

/-- The `recentLogs` query result is the 10 **most recent** rows: any log row
left out is no newer than every row taken. -/
theorem recentSyncLogs_most_recent (l : List SyncLogRow) :
    ∀ x ∈ l, x ∉ recentSyncLogs l →
      ∀ y ∈ recentSyncLogs l, x.synced_at ≤ y.synced_at := by
  intro x hx hnot y hy
  have hxs : x ∈ l.insertionSort syncedAtDesc :=
    (List.mem_insertionSort syncedAtDesc).mpr hx
  have hsplit := List.take_append_drop 10 (l.insertionSort syncedAtDesc)
  have hxdrop : x ∈ (l.insertionSort syncedAtDesc).drop 10 := by
    rcases List.mem_append.mp (hsplit ▸ hxs) with h | h
    · exact absurd h hnot
    · exact h
  have hpw : ((l.insertionSort syncedAtDesc).take 10 ++
      (l.insertionSort syncedAtDesc).drop 10).Pairwise syncedAtDesc := by
    rw [hsplit]; exact insertionSort_syncedAtDesc_pairwise l
  exact (List.pairwise_append.mp hpw).2.2 y hy x hxdrop

/-- The queue-size query counts exactly the readings with
`is_synchronized = false`. -/
theorem queueSizeOf_eq (readings : List MeterReadingRow) :
    queueSizeOf readings =
      (readings.filter (fun r => r.is_synchronized = false)).length := by
  unfold queueSizeOf
  congr 1
  refine List.filter_congr fun r _ => ?_
  cases h : r.is_synchronized <;> simp [h]

/-- C2: the sync-status response — `queue_size` is the number of readings
with `is_synchronized = false`; `recentLogs` is the ≤ 10 most recent sync-log
rows; `sync_errors` never exceeds 10 entries, each drawn from a
`success = false` row of `recentLogs` with its message defaulted to
`"Unknown error"` when absent, and is ordered most-recent-first by completion
timestamp; `last_sync_at` is null exactly when no `success = true` row is
among `recentLogs`, and otherwise is the completion time of the most recent
such row. -/
theorem getSyncStatus_contract :
    ∀ (readings : List MeterReadingRow) (syncLog : List SyncLogRow)
      (remoteProbeOk : Bool),
      (getSyncStatus readings syncLog remoteProbeOk).queue_size =
          (readings.filter (fun r => r.is_synchronized = false)).length ∧
      (recentSyncLogs syncLog).length ≤ 10 ∧
      (∀ x ∈ recentSyncLogs syncLog, x ∈ syncLog) ∧
      (∀ x ∈ syncLog, x ∉ recentSyncLogs syncLog →
        ∀ y ∈ recentSyncLogs syncLog, x.synced_at ≤ y.synced_at) ∧
      (getSyncStatus readings syncLog remoteProbeOk).sync_errors.length ≤ 10 ∧
      (∀ e ∈ (getSyncStatus readings syncLog remoteProbeOk).sync_errors,
        ∃ log, log ∈ recentSyncLogs syncLog ∧ log.success = false ∧
          e = toSyncErrorEntry log) ∧
      (getSyncStatus readings syncLog remoteProbeOk).sync_errors.Pairwise
        (fun a b => b.synced_at ≤ a.synced_at) ∧
      ((getSyncStatus readings syncLog remoteProbeOk).last_sync_at = none ↔
        ∀ log ∈ recentSyncLogs syncLog, log.success = false) ∧
      (∀ ts, (getSyncStatus readings syncLog remoteProbeOk).last_sync_at =
          some ts →
        ∃ log, log ∈ recentSyncLogs syncLog ∧ log.success = true ∧
          log.synced_at = ts ∧
          ∀ log' ∈ recentSyncLogs syncLog, log'.success = true →
            log'.synced_at ≤ ts) := by
  intro readings syncLog remoteProbeOk
  refine ⟨queueSizeOf_eq readings, ?_, recentSyncLogs_subset syncLog,
    recentSyncLogs_most_recent syncLog, ?_, ?_, ?_, ?_, ?_⟩
  · unfold recentSyncLogs
    rw [List.length_take]
    exact Nat.min_le_left _ _
  · simp only [getSyncStatus, List.length_map]
    rw [List.length_take]
    exact Nat.min_le_left _ _
  · intro e he
    simp only [getSyncStatus, List.mem_map] at he
    rcases he with ⟨log, hlog, hmap⟩
    have hfil : log ∈ (recentSyncLogs syncLog).filter
        (fun log => !log.success) := (List.take_sublist 10 _).subset hlog
    rcases List.mem_filter.mp hfil with ⟨hmem, hns⟩
    exact ⟨log, hmem, by simpa using hns, hmap.symm⟩
  · simp only [getSyncStatus]
    refine List.pairwise_map.mpr ?_
    exact List.Pairwise.sublist
      ((List.take_sublist 10 _).trans (List.filter_sublist _))
      (recentSyncLogs_pairwise syncLog)
  · simp only [getSyncStatus, Option.map_eq_none', List.head?_eq_none_iff,
      List.filter_eq_nil_iff]
    constructor
    · intro h log hmem
      simpa using h log hmem
    · intro h log hmem
      simp [h log hmem]
  · intro ts hts
    simp only [getSyncStatus, Option.map_eq_some'] at hts
    rcases hts with ⟨log0, hhead, hsync⟩
    cases hfl : (recentSyncLogs syncLog).filter (fun log => log.success) with
    | nil => rw [hfl] at hhead; simp at hhead
    | cons a rest =>
        rw [hfl] at hhead
        have ha : a = log0 := by simpa using hhead
        subst ha
        have hmemf : a ∈ (recentSyncLogs syncLog).filter
            (fun log => log.success) := by
          rw [hfl]
          exact List.mem_cons_self a rest
        rcases List.mem_filter.mp hmemf with ⟨hmem, hsucc⟩
        refine ⟨a, hmem, by simpa using hsucc, hsync, ?_⟩
        intro log' hmem' hsucc'
        have hmemf' : log' ∈ (recentSyncLogs syncLog).filter
            (fun log => log.success) :=
          List.mem_filter.mpr ⟨hmem', by simpa using hsucc'⟩
        rw [hfl] at hmemf'
        rcases List.mem_cons.mp hmemf' with h | h
        · rw [h, hsync]
        · have hpwf : (a :: rest).Pairwise syncedAtDesc := by
            rw [← hfl]
            exact List.Pairwise.sublist (List.filter_sublist _)
              (recentSyncLogs_pairwise syncLog)
          have hle := (List.pairwise_cons.mp hpwf).1 log' h
          rw [← hsync]
          exact hle

/-- C2 witness: the contract applied to a concrete log — two failures and one
older success among the recent rows — recovering the error entry's defaulted
message, its provenance, and the last successful sync time. -/
theorem getSyncStatus_contract_witness :
    (getSyncStatus [⟨1, 1, false⟩, ⟨2, 2, true⟩]
        [⟨1, 5, false, none, 30, "upload"⟩, ⟨2, 4, true, none, 20, "upload"⟩,
          ⟨3, 3, false, some "boom", 10, "upload"⟩] true).queue_size = 1 ∧
      (getSyncStatus [⟨1, 1, false⟩, ⟨2, 2, true⟩]
        [⟨1, 5, false, none, 30, "upload"⟩, ⟨2, 4, true, none, 20, "upload"⟩,
          ⟨3, 3, false, some "boom", 10, "upload"⟩] true).last_sync_at =
        some 20 ∧
      (∃ log, log ∈ recentSyncLogs
          [⟨1, 5, false, none, 30, "upload"⟩, ⟨2, 4, true, none, 20, "upload"⟩,
            ⟨3, 3, false, some "boom", 10, "upload"⟩] ∧
        log.success = false ∧
        (⟨1, 5, "Unknown error", 30⟩ : SyncErrorEntry) =
          toSyncErrorEntry log) := by
  have h := getSyncStatus_contract [⟨1, 1, false⟩, ⟨2, 2, true⟩]
    [⟨1, 5, false, none, 30, "upload"⟩, ⟨2, 4, true, none, 20, "upload"⟩,
      ⟨3, 3, false, some "boom", 10, "upload"⟩] true
  refine ⟨by decide, ?_, ?_⟩
  · rcases (h.2.2.2.2.2.2.2.2 20 (by decide)) with ⟨log, hmem, hsucc, hts, _⟩
    decide
  · exact h.2.2.2.2.2.1 ⟨1, 5, "Unknown error", 30⟩ (by decide)

/-- C8: the upload-status response — `is_running` is `false` regardless of
any state; `queue_size` counts the unsynchronized readings; when no sync-log
row has operation type `"upload"`, the three `last_upload_*` fields are all
null; when some has, `lastUpload` resolves to a most-recent `"upload"` row and
the three fields are taken from it (the error message passing through the
JS `|| null`, which nulls an absent or empty message). -/
theorem getUploadStatus_contract :
    ∀ (readings : List MeterReadingRow) (syncLog : List SyncLogRow)
      (remoteProbeOk : Bool),
      (getUploadStatus readings syncLog remoteProbeOk).is_running = false ∧
      (getUploadStatus readings syncLog remoteProbeOk).queue_size =
          (readings.filter (fun r => r.is_synchronized = false)).length ∧
      ((∀ log ∈ syncLog, log.operation_type ≠ "upload") →
        (getUploadStatus readings syncLog remoteProbeOk).last_upload_time =
            none ∧
          (getUploadStatus readings syncLog
            remoteProbeOk).last_upload_success = none ∧
          (getUploadStatus readings syncLog remoteProbeOk).last_upload_error =
            none) ∧
      ((∃ log ∈ syncLog, log.operation_type = "upload") →
        ∃ log, lastUploadRow syncLog = some log) ∧
      (∀ log, lastUploadRow syncLog = some log →
        log ∈ syncLog ∧ log.operation_type = "upload" ∧
        (∀ log' ∈ syncLog, log'.operation_type = "upload" →
          log'.synced_at ≤ log.synced_at) ∧
        (getUploadStatus readings syncLog remoteProbeOk).last_upload_time =
          some log.synced_at ∧
        (getUploadStatus readings syncLog remoteProbeOk).last_upload_success =
          some log.success ∧
        (getUploadStatus readings syncLog remoteProbeOk).last_upload_error =
          (match log.error_message with
            | some s => if s = "" then none else some s
            | none => none)) := by
  intro readings syncLog remoteProbeOk
  refine ⟨rfl, queueSizeOf_eq readings, ?_, ?_, ?_⟩
  · intro hnone
    have hf : syncLog.filter (fun log => log.operation_type = "upload") = [] :=
      List.filter_eq_nil_iff.mpr fun log hmem => by simp [hnone log hmem]
    have hlast : lastUploadRow syncLog = none := by
      unfold lastUploadRow
      rw [hf]
      rfl
    simp [getUploadStatus, hlast]
  · intro hex
    rcases hex with ⟨log, hmem, hop⟩
    have hmemf : log ∈ syncLog.filter
        (fun log => log.operation_type = "upload") :=
      List.mem_filter.mpr ⟨hmem, by simp [hop]⟩
    have hmems : log ∈ (syncLog.filter
        (fun log => log.operation_type = "upload")).insertionSort
          syncedAtDesc :=
      (List.mem_insertionSort syncedAtDesc).mpr hmemf
    cases hs : (syncLog.filter
        (fun log => log.operation_type = "upload")).insertionSort
          syncedAtDesc with
    | nil => rw [hs] at hmems; simp at hmems
    | cons a t => exact ⟨a, by unfold lastUploadRow; rw [hs]; rfl⟩
  · intro log hlast
    unfold lastUploadRow at hlast
    cases hs : (syncLog.filter
        (fun log => log.operation_type = "upload")).insertionSort
          syncedAtDesc with
    | nil => rw [hs] at hlast; simp at hlast
    | cons a t =>
        rw [hs] at hlast
        have ha : a = log := by simpa using hlast
        subst ha
        have hmemf : a ∈ syncLog.filter
            (fun log => log.operation_type = "upload") :=
          (List.mem_insertionSort syncedAtDesc).mp
            (hs ▸ List.mem_cons_self a t)
        rcases List.mem_filter.mp hmemf with ⟨hmem, hop⟩
        have hfields : getUploadStatus readings syncLog remoteProbeOk =
            { is_running := false,
              last_upload_time := some a.synced_at,
              last_upload_success := some a.success,
              last_upload_error :=
                (match a.error_message with
                  | some s => if s = "" then none else some s
                  | none => none),
              queue_size := queueSizeOf readings,
              total_uploaded := 0,
              total_failed := 0,
              is_client_connected := remoteProbeOk } := by
          unfold getUploadStatus lastUploadRow
          rw [hs]
          rfl
        refine ⟨hmem, by simpa using hop, ?_, by rw [hfields],
          by rw [hfields], by rw [hfields]⟩
        intro log' hmem' hop'
        have hmemf' : log' ∈ syncLog.filter
            (fun log => log.operation_type = "upload") :=
          List.mem_filter.mpr ⟨hmem', by simp [hop']⟩
        have hmems' : log' ∈ (syncLog.filter
            (fun log => log.operation_type = "upload")).insertionSort
              syncedAtDesc :=
          (List.mem_insertionSort syncedAtDesc).mpr hmemf'
        rw [hs] at hmems'
        rcases List.mem_cons.mp hmems' with h | h
        · rw [h]
        · have hpw : (a :: t).Pairwise syncedAtDesc := by
            rw [← hs]
            exact insertionSort_syncedAtDesc_pairwise _
          exact (List.pairwise_cons.mp hpw).1 log' h

/-- C8 witness: the upload-status contract applied to a log whose only two
`"upload"` rows are a recent failure (empty error message, nulled by `||`) and
an older success, plus a newer `"tenant-sync"` row that must be ignored. -/
theorem getUploadStatus_contract_witness :
    (getUploadStatus [⟨1, 1, false⟩]
        [⟨1, 1, true, none, 50, "tenant-sync"⟩,
          ⟨2, 6, false, some "", 40, "upload"⟩,
          ⟨3, 5, true, none, 30, "upload"⟩] true).is_running = false ∧
      (getUploadStatus [⟨1, 1, false⟩]
        [⟨1, 1, true, none, 50, "tenant-sync"⟩,
          ⟨2, 6, false, some "", 40, "upload"⟩,
          ⟨3, 5, true, none, 30, "upload"⟩] true).last_upload_time =
        some 40 ∧
      (getUploadStatus [⟨1, 1, false⟩]
        [⟨1, 1, true, none, 50, "tenant-sync"⟩,
          ⟨2, 6, false, some "", 40, "upload"⟩,
          ⟨3, 5, true, none, 30, "upload"⟩] true).last_upload_success =
        some false ∧
      (getUploadStatus [⟨1, 1, false⟩]
        [⟨1, 1, true, none, 50, "tenant-sync"⟩,
          ⟨2, 6, false, some "", 40, "upload"⟩,
          ⟨3, 5, true, none, 30, "upload"⟩] true).last_upload_error =
        none := by
  have h := getUploadStatus_contract [⟨1, 1, false⟩]
    [⟨1, 1, true, none, 50, "tenant-sync"⟩,
      ⟨2, 6, false, some "", 40, "upload"⟩,
      ⟨3, 5, true, none, 30, "upload"⟩] true
  have hchar := h.2.2.2.2 ⟨2, 6, false, some "", 40, "upload"⟩ (by decide)
  refine ⟨h.1, by rw [hchar.2.2.2.1], by rw [hchar.2.2.2.2.1], ?_⟩
  rw [hchar.2.2.2.2.2]
  rfl

end MeterItPro
